import Mathlib

/-!
Verification development for the booking lifecycle and conflict-resolution
core of the Book_Catalog_REST service.

The embedding below is a shallow translation of the Python source:

* `Booking` mirrors `app/models/booking.py` (SQLAlchemy model): integer id,
  `book_id` (the spec's `resource_id`), `user_id` (the spec's `subject_id`),
  naive timestamps modelled as `Int` (seconds), and the `active` flag.
* `DB` is the visible storage state: the booking table plus the id sets of
  the Book and User tables (the core only ever asks "does this id exist")
  and the id the storage will assign to the next inserted booking row.
* The CRUD operations translate `app/crud/crud_booking.py` method by
  method, keeping the exact order and shape of the checks.  Each mutating
  operation performs all of its writes through a single commit, mirrored by
  the `fl` flag: `fl = true` means the storage layer fails that commit
  (SQLAlchemyError); the commit is atomic per the storage interface, so a
  failed commit applies nothing and the operation returns the storage
  error, exactly as the `except SQLAlchemyError` arms of the source do.
  `create`, `update` and `cancel` additionally call
  `await db.refresh(db_obj)` AFTER the commit, inside the same `try`
  (lines 69, 182, 246); a SQLAlchemyError raised there is caught by the
  same arm and surfaces the storage error even though the commit is
  already durable.  That post-commit step is `refreshStep`, with a second
  failure flag, and `createWithRefresh` / `updateWithRefresh` /
  `cancelWithRefresh` are the end-to-end operations; `remove` performs no
  refresh.
* `Python note`: in `update`, the payload fields `book_id`, `user_id`,
  `start_time`, `end_time` are required by the `BookingUpdate` pydantic
  schema (`app/schemas/booking.py`), and a Python `datetime` is always
  truthy, so `obj_in.start_time and obj_in.end_time and ...` reduces to the
  plain comparison and `obj_in.start_time or db_obj.start_time` is always
  the payload value; only `active` can be absent from the payload
  (`exclude_unset`), modelled as `Option Bool`.
* `update_bookings` translates the Celery sweep in
  `app/tasks/booking_tasks.py`.
* The endpoint functions translate `app/api/v1/endpoints/booking.py`,
  including the behaviour of the `try/except Exception` blocks: an
  `HTTPException` raised inside the `try` is itself an `Exception`, so it
  is caught and re-raised with the handler's status code and with
  `str(e) = "{status_code}: {detail}"` (starlette) as the new detail.
-/

deriving instance DecidableEq for Except

namespace BookCatalog

/-- A row of the `booking` table (`app/models/booking.py`).  Timestamps are
naive instants modelled as integers (second granularity). -/
structure Booking where
  id : Nat
  book_id : Nat
  user_id : Nat
  start_time : Int
  end_time : Int
  active : Bool
deriving Repr, DecidableEq

/-- Stored state seen by the booking core: the booking table, the existing
book ids, the existing user ids, and the next primary key the storage
assigns on insert. -/
structure DB where
  bookings : List Booking
  books : List Nat
  users : List Nat
  nextId : Nat
deriving Repr, DecidableEq

/-- Payload of `BookingCreate` (`app/schemas/booking.py`): all fields
required (`active` defaults to `True` at the schema layer, so a value is
always present by the time `create` runs). -/
structure BookingCreate where
  book_id : Nat
  user_id : Nat
  start_time : Int
  end_time : Int
  active : Bool
deriving Repr, DecidableEq

/-- Payload of `BookingUpdate` (`app/schemas/booking.py`): `book_id`,
`user_id`, `start_time`, `end_time` are required fields; `active` is
`Optional[bool]` and is the only field that can be absent from
`obj_in.dict(exclude_unset=True)` — absence is `none`. -/
structure BookingUpdate where
  book_id : Nat
  user_id : Nat
  start_time : Int
  end_time : Int
  active : Option Bool
deriving Repr, DecidableEq

/-- The two kinds of exception the CRUD layer raises
(`raise Exception(f"Validation error: ...")` and
`raise Exception(f"Database error occurred: ...")`). -/
inductive CrudError where
  | validation (msg : String)
  | storage (msg : String)
deriving Repr, DecidableEq

/-- Message of the exception the CRUD layer raises, as the endpoint's
`except Exception as e` sees it via `str(e)`. -/
def CrudError.excMsg : CrudError → String
  | CrudError.validation m => "Validation error: " ++ m
  | CrudError.storage m => "Database error occurred: " ++ m

/-- The fixed 3-hour offset (`timedelta(hours=3)`), in seconds. -/
def threeHours : Int := 10800

/-- The filter of the overlap query in `CRUDBooking.create`
(lines 48–55): same `book_id`, `end_time > start_time` of the request,
`start_time < end_time` of the request, `active == True`. -/
def overlapExists (bs : List Booking) (bk : Nat) (s e : Int) : Prop :=
  ∃ b ∈ bs, b.book_id = bk ∧ s < b.end_time ∧ b.start_time < e ∧ b.active = true

instance (bs : List Booking) (bk : Nat) (s e : Int) :
    Decidable (overlapExists bs bk s e) := by
  unfold overlapExists; exact inferInstance

/-- The filter of the overlap query in `CRUDBooking.update`
(lines 165–173): note it matches `Booking.book_id == db_obj.book_id`, the
booking's OLD book id, and excludes the booking itself by id. -/
def overlapOther (bs : List Booking) (bk selfId : Nat) (s e : Int) : Prop :=
  ∃ b ∈ bs, b.book_id = bk ∧ b.id ≠ selfId ∧ s < b.end_time ∧ b.start_time < e ∧ b.active = true

instance (bs : List Booking) (bk selfId : Nat) (s e : Int) :
    Decidable (overlapOther bs bk selfId s e) := by
  unfold overlapOther; exact inferInstance

/-- The row `CRUDBooking.create` inserts (lines 60–66), with the primary
key the storage assigns. -/
def newBookingOf (db : DB) (q : BookingCreate) : Booking :=
  { id := db.nextId, book_id := q.book_id, user_id := q.user_id,
    start_time := q.start_time, end_time := q.end_time, active := q.active }

/-- `CRUDBooking.create` up to and including the commit: ordering check,
book existence, user existence, overlap query (conflict returns `None` =
`Except.ok none`), then insert and commit.  `fl = true` makes the commit
raise `SQLAlchemyError`; the `except SQLAlchemyError` arm rolls back and
re-raises, so the state is unchanged.  The post-commit `db.refresh` of
line 69 is the separate `refreshStep`; see `createWithRefresh` for the
end-to-end operation. -/
def create (fl : Bool) (db : DB) (q : BookingCreate) :
    Except CrudError (Option Booking) × DB :=
  if q.start_time ≥ q.end_time then
    (Except.error (CrudError.validation "Start time must be before end time"), db)
  else if q.book_id ∉ db.books then
    (Except.error (CrudError.validation "Book with given ID does not exist"), db)
  else if q.user_id ∉ db.users then
    (Except.error (CrudError.validation "User with given ID does not exist"), db)
  else if overlapExists db.bookings q.book_id q.start_time q.end_time then
    (Except.ok none, db)
  else if fl then
    (Except.error (CrudError.storage "commit failed"), db)
  else
    (Except.ok (some (newBookingOf db q)),
      { db with bookings := db.bookings ++ [newBookingOf db q], nextId := db.nextId + 1 })

/-- `CRUDBooking.get`: first row with the given id, or `None`. -/
def get (db : DB) (i : Nat) : Option Booking :=
  db.bookings.find? (fun b => b.id == i)

/-- `CRUDBooking.get_multi`: offset/limit pagination in insertion order. -/
def get_multi (db : DB) (skip limit : Nat) : List Booking :=
  (db.bookings.drop skip).take limit

/-- The `setattr` loop of `CRUDBooking.update` (lines 178–179): every field
present in `obj_in.dict(exclude_unset=True)` is written onto the row; the
four required fields are always present, `active` only when supplied. -/
def applyFields (b : Booking) (q : BookingUpdate) : Booking :=
  { b with book_id := q.book_id, user_id := q.user_id,
           start_time := q.start_time, end_time := q.end_time,
           active := q.active.getD b.active }

/-- Replace the row whose id matches (primary-key lookup) by the new row. -/
def replaceById (bs : List Booking) (i : Nat) (nb : Booking) : List Booking :=
  bs.map (fun b => if b.id == i then nb else b)

/-- `CRUDBooking.update` on an already-fetched row `db_obj`, up to and
including the commit: ordering check on the payload times (both always
present and truthy), book/user existence checks on the PAYLOAD ids,
overlap query against other active bookings on the row's OLD `book_id`,
then the `setattr` loop and one commit.  The post-commit `db.refresh` of
line 182 is the separate `refreshStep`; see `updateWithRefresh`. -/
def update (fl : Bool) (db : DB) (db_obj : Booking) (q : BookingUpdate) :
    Except CrudError (Option Booking) × DB :=
  if q.start_time ≥ q.end_time then
    (Except.error (CrudError.validation "Start time must be before end time"), db)
  else if q.book_id ∉ db.books then
    (Except.error (CrudError.validation "Book with given ID does not exist"), db)
  else if q.user_id ∉ db.users then
    (Except.error (CrudError.validation "User with given ID does not exist"), db)
  else if overlapOther db.bookings db_obj.book_id db_obj.id q.start_time q.end_time then
    (Except.ok none, db)
  else if fl then
    (Except.error (CrudError.storage "commit failed"), db)
  else
    (Except.ok (some (applyFields db_obj q)),
      { db with bookings := replaceById db.bookings db_obj.id (applyFields db_obj q) })

/-- The endpoint flow of `PUT /bookings/{id}` below the transport layer:
fetch by id (`crud_booking.get`), not found short-circuits, otherwise
`crud_booking.update` on the fetched row.  `Except.ok none` stands for
both the endpoint's 404 (id unknown) and the conflict `None`; the concrete
runs below only use it on states where the distinction is evident. -/
def updateOp (fl : Bool) (db : DB) (i : Nat) (q : BookingUpdate) :
    Except CrudError (Option Booking) × DB :=
  match get db i with
  | none => (Except.ok none, db)
  | some b => update fl db b q

/-- `CRUDBooking.remove`: fetch by id, `None` when absent, otherwise
delete that row and commit. -/
def remove (fl : Bool) (db : DB) (i : Nat) :
    Except CrudError (Option Booking) × DB :=
  match get db i with
  | none => (Except.ok none, db)
  | some b =>
    if fl then
      (Except.error (CrudError.storage "commit failed"), db)
    else
      (Except.ok (some b), { db with bookings := db.bookings.eraseP (fun x => x.id == b.id) })

/-- `CRUDBooking.cancel` (lines 237–247) up to and including the commit:
fetch by id, `None` when absent, otherwise unconditionally set
`active = False` and `end_time = datetime.utcnow() + timedelta(hours=3)`
(the wall clock `t` is a parameter), then commit.  No overlap query is
performed.  The post-commit `db.refresh` of line 246 is the separate
`refreshStep`; see `cancelWithRefresh`. -/
def cancel (fl : Bool) (t : Int) (db : DB) (i : Nat) :
    Except CrudError (Option Booking) × DB :=
  match get db i with
  | none => (Except.ok none, db)
  | some b =>
    if fl then
      (Except.error (CrudError.storage "commit failed"), db)
    else
      (Except.ok (some { b with active := false, end_time := t + threeHours }),
        { db with bookings :=
            replaceById db.bookings b.id { b with active := false, end_time := t + threeHours } })

/-- The post-commit `await db.refresh(db_obj)` step shared by `create`
(line 69), `update` (line 182) and `cancel` (line 246).  In the source it
runs only on the success path, after the commit has gone through and just
before the row is returned (`Except.ok (some _)`); the validation,
conflict, not-found and commit-failure paths never reach it.  `flr = true`
makes the refresh raise `SQLAlchemyError`: the enclosing `except` arm then
surfaces the storage error, but the commit is already durable, so the
stored state stays the committed one — a rollback after a completed
commit undoes nothing. -/
def refreshStep (flr : Bool) (r : Except CrudError (Option Booking) × DB) :
    Except CrudError (Option Booking) × DB :=
  match r with
  | (Except.ok (some b), db2) =>
      if flr then (Except.error (CrudError.storage "refresh failed"), db2)
      else (Except.ok (some b), db2)
  | other => other

/-- `CRUDBooking.create` end to end: the checks-insert-commit part
(`create`, failure flag `flc`) followed by the post-commit refresh
(failure flag `flr`). -/
def createWithRefresh (flc flr : Bool) (db : DB) (q : BookingCreate) :
    Except CrudError (Option Booking) × DB :=
  refreshStep flr (create flc db q)

/-- `CRUDBooking.update` end to end: checks, overlap query, `setattr`
loop and commit (`update`) followed by the post-commit refresh. -/
def updateWithRefresh (flc flr : Bool) (db : DB) (db_obj : Booking) (q : BookingUpdate) :
    Except CrudError (Option Booking) × DB :=
  refreshStep flr (update flc db db_obj q)

/-- `CRUDBooking.cancel` end to end: lookup, flip-and-commit (`cancel`)
followed by the post-commit refresh.  `CRUDBooking.remove` performs no
refresh after its commit, so `remove` already is the end-to-end
operation. -/
def cancelWithRefresh (flc flr : Bool) (t : Int) (db : DB) (i : Nat) :
    Except CrudError (Option Booking) × DB :=
  refreshStep flr (cancel flc t db i)

/-- The per-row effect of one sweep at wall-clock `t`: a row matched by the
sweep query (`end_time < now` with `now = t + 3h`, and `active == True`)
gets `active = False`; any other row is untouched. -/
def sweepFlip (t : Int) (b : Booking) : Booking :=
  if b.end_time < t + threeHours ∧ b.active = true then { b with active := false } else b

/-- The Expiry Sweeper `update_bookings` (`app/tasks/booking_tasks.py`):
`now = datetime.utcnow() + timedelta(hours=3)`; every row with
`end_time < now` and `active == True` gets `active = False`; one commit for
the batch. -/
def update_bookings (t : Int) (db : DB) : DB :=
  { db with bookings := db.bookings.map (sweepFlip t) }

/-- The spec's non-overlap invariant, as a decidable check: no two distinct
active bookings on the same book have overlapping half-open intervals. -/
def noOverlapB (db : DB) : Bool :=
  db.bookings.all (fun a => db.bookings.all (fun b =>
    !(a.id != b.id && a.active && b.active && a.book_id == b.book_id
      && decide (b.start_time < a.end_time) && decide (a.start_time < b.end_time))))

/-- An HTTP error as FastAPI's `HTTPException` carries it. -/
structure HTTPErr where
  status : Nat
  detail : String
deriving Repr, DecidableEq

/-- starlette's `HTTPException.__str__`: `"{status_code}: {detail}"`. -/
def HTTPErr.str (e : HTTPErr) : String := toString e.status ++ ": " ++ e.detail

/-- Detail string of the conflict response in the booking endpoints. -/
def conflictMsg : String := "Book is already booked in the specified period"

/-- `GET /bookings/{id}` (`read_booking`, endpoint lines 63–87).  Inside
the `try`: `crud_booking.get` (raises the storage exception when the
storage layer fails, modelled by `fl`), then `raise HTTPException(404)`
when the row is absent.  The trailing `except Exception` catches BOTH the
storage exception and the 404 `HTTPException` and re-raises
`HTTPException(500, str(e))`. -/
def read_booking (fl : Bool) (db : DB) (i : Nat) : Except HTTPErr Booking :=
  if fl then
    Except.error { status := 500, detail := CrudError.excMsg (CrudError.storage "db") }
  else
    match get db i with
    | none =>
        Except.error { status := 500,
                       detail := HTTPErr.str { status := 404, detail := "Booking not found" } }
    | some b => Except.ok b

/-- `POST /bookings/` (`create_booking`, endpoint lines 11–35).  The CRUD
exceptions and the conflict 400 raised inside the `try` are all caught by
`except Exception` and re-raised as `HTTPException(400, str(e))`. -/
def create_booking (fl : Bool) (db : DB) (q : BookingCreate) :
    Except HTTPErr Booking × DB :=
  match create fl db q with
  | (Except.error e, db2) => (Except.error { status := 400, detail := CrudError.excMsg e }, db2)
  | (Except.ok none, db2) =>
      (Except.error { status := 400,
                      detail := HTTPErr.str { status := 400, detail := conflictMsg } }, db2)
  | (Except.ok (some b), db2) => (Except.ok b, db2)

/-- `PUT /bookings/{id}/cancel` (`cancel_booking`, endpoint lines
147–172): the 404 raised inside the `try` is caught by `except Exception`
and re-raised as `HTTPException(500, str(e))`; the CRUD storage exception
likewise becomes a 500. -/
def cancel_booking (fl : Bool) (t : Int) (db : DB) (i : Nat) :
    Except HTTPErr Booking × DB :=
  match cancel fl t db i with
  | (Except.error e, db2) => (Except.error { status := 500, detail := CrudError.excMsg e }, db2)
  | (Except.ok none, db2) =>
      (Except.error { status := 500,
                      detail := HTTPErr.str { status := 404, detail := "Booking not found" } }, db2)
  | (Except.ok (some b), db2) => (Except.ok b, db2)

/-- Status code an endpoint outcome surfaces to the HTTP caller. -/
def statusOf (r : Except HTTPErr Booking) : Nat :=
  match r with
  | Except.error e => e.status
  | Except.ok _ => 200

/-- Claim C1: the non-overlap invariant is claimed to hold after every
sequence of operations; the code violates it.  Concrete run: from an empty
store with books 1, 2 and user 1, Create books 1 and 2 each with an active
booking over [10, 12); the state satisfies the invariant.  Updating the
second booking with payload `book_id = 1` (times unchanged) succeeds —
`update` checks overlap against the row's OLD `book_id` (2) but writes the
payload's NEW `book_id` (1) — leaving two overlapping active bookings on
book 1: the invariant check is false on the resulting state. -/
theorem C1_update_across_books_breaks_invariant :
    create false ⟨[], [1, 2], [1], 1⟩ ⟨1, 1, 10, 12, true⟩
      = (Except.ok (some ⟨1, 1, 1, 10, 12, true⟩),
         ⟨[⟨1, 1, 1, 10, 12, true⟩], [1, 2], [1], 2⟩)
  ∧ create false ⟨[⟨1, 1, 1, 10, 12, true⟩], [1, 2], [1], 2⟩ ⟨2, 1, 10, 12, true⟩
      = (Except.ok (some ⟨2, 2, 1, 10, 12, true⟩),
         ⟨[⟨1, 1, 1, 10, 12, true⟩, ⟨2, 2, 1, 10, 12, true⟩], [1, 2], [1], 3⟩)
  ∧ noOverlapB ⟨[⟨1, 1, 1, 10, 12, true⟩, ⟨2, 2, 1, 10, 12, true⟩], [1, 2], [1], 3⟩ = true
  ∧ updateOp false ⟨[⟨1, 1, 1, 10, 12, true⟩, ⟨2, 2, 1, 10, 12, true⟩], [1, 2], [1], 3⟩
      2 ⟨1, 1, 10, 12, none⟩
      = (Except.ok (some ⟨2, 1, 1, 10, 12, true⟩),
         ⟨[⟨1, 1, 1, 10, 12, true⟩, ⟨2, 1, 1, 10, 12, true⟩], [1, 2], [1], 3⟩)
  ∧ noOverlapB ⟨[⟨1, 1, 1, 10, 12, true⟩, ⟨2, 1, 1, 10, 12, true⟩], [1, 2], [1], 3⟩ = false := by
  decide

/-- Claim C4 (counterexample): an active booking ending at time 3600 —
strictly in the future at current time 0 — is claimed to be left untouched
by one sweep; the sweep compares `end_time < now + 3h`, so it deactivates
it. -/
theorem C4_counterexample_future_booking_swept :
    (0 : Int) < 3600
  ∧ update_bookings 0 ⟨[⟨1, 1, 1, 0, 3600, true⟩], [1], [1], 2⟩
      = ⟨[⟨1, 1, 1, 0, 3600, false⟩], [1], [1], 2⟩ := by
  decide

/-- Claim C6 (counterexample): cancelling the already-inactive booking
`⟨1, 1, 1, 0, 5, false⟩` at wall-clock 0 is neither a not-found nor a no-op
returning its current state: it returns the row with `end_time` rewritten
to `0 + 3h = 10800 ≠ 5` and stores that mutation. -/
theorem C6_counterexample_cancel_inactive_mutates :
    cancel false 0 ⟨[⟨1, 1, 1, 0, 5, false⟩], [1], [1], 2⟩ 1
      = (Except.ok (some ⟨1, 1, 1, 0, 10800, false⟩),
         ⟨[⟨1, 1, 1, 0, 10800, false⟩], [1], [1], 2⟩)
  ∧ (⟨1, 1, 1, 0, 10800, false⟩ : Booking) ≠ ⟨1, 1, 1, 0, 5, false⟩ := by
  decide

/-- Claim C8: the four outcome kinds are claimed pairwise distinguishable
to the immediate caller; the code collapses them.  On `GET /bookings/1`
against an empty store, the 404 raised inside the `try` is caught by the
endpoint's own `except Exception` and re-surfaced with status 500 — the
same status a storage failure surfaces — and on `POST /bookings/` the
validation error, the conflict and the storage error all surface with
status 400. -/
theorem C8_outcome_kinds_collapse :
    read_booking false ⟨[], [1], [1], 1⟩ 1
      = Except.error ⟨500, "404: Booking not found"⟩
  ∧ statusOf (read_booking false ⟨[], [1], [1], 1⟩ 1)
      = statusOf (read_booking true ⟨[], [1], [1], 1⟩ 1)
  ∧ statusOf (cancel_booking false 0 ⟨[], [1], [1], 1⟩ 1).1
      = statusOf (cancel_booking true 0 ⟨[⟨1, 1, 1, 0, 5, true⟩], [1], [1], 2⟩ 1).1
  ∧ statusOf (create_booking false ⟨[], [1], [1], 1⟩ ⟨1, 1, 12, 10, true⟩).1
      = statusOf (create_booking false ⟨[⟨1, 1, 1, 10, 12, true⟩], [1], [1], 2⟩
          ⟨1, 1, 10, 12, true⟩).1
  ∧ statusOf (create_booking false ⟨[], [1], [1], 1⟩ ⟨1, 1, 12, 10, true⟩).1
      = statusOf (create_booking true ⟨[], [1], [1], 1⟩ ⟨1, 1, 10, 12, true⟩).1 := by
  decide

/-- The overlap predicate of the create query, restated with the spec's
conjunct order (`its end_time > start_time AND its start_time < end_time`,
active, same book). -/
theorem overlapExists_equiv (bs : List Booking) (bk : Nat) (s e : Int) :
    overlapExists bs bk s e ↔
      ∃ b ∈ bs, b.book_id = bk ∧ b.active = true ∧ b.end_time > s ∧ b.start_time < e := by
  unfold overlapExists
  constructor
  · rintro ⟨b, hb, h1, h2, h3, h4⟩
    exact ⟨b, hb, h1, h4, h2, h3⟩
  · rintro ⟨b, hb, h1, h2, h3, h4⟩
    exact ⟨b, hb, h1, h3, h4, h2⟩

/-- One sweep's per-row effect is idempotent: a flipped row is inactive and
never matches the sweep query again. -/
theorem sweepFlip_idem (t : Int) (b : Booking) :
    sweepFlip t (sweepFlip t b) = sweepFlip t b := by
  unfold sweepFlip
  by_cases h : b.end_time < t + threeHours ∧ b.active = true
  · simp [h]
  · simp [h]

/-- Mapping the per-row sweep effect twice over a booking table is the
same as mapping it once. -/
theorem map_sweepFlip_comp (t : Int) (bs : List Booking) :
    bs.map (sweepFlip t ∘ sweepFlip t) = bs.map (sweepFlip t) := by
  induction bs with
  | nil => rfl
  | cons a l ih => simp [Function.comp, sweepFlip_idem, ih]

/-- Claim C2: under the preconditions (ordered times, existing book and
user), `create` returns the conflict outcome (`None`, not an exception) if
and only if some existing booking on the same book with `active = true`
satisfies the half-open overlap predicate; otherwise it persists and
returns a row with exactly the given fields (and the storage-assigned id).
Exact adjacency (`new start = existing end`) fails the strict
`end_time > start_time` conjunct, so it is not a conflict. -/
theorem C2_create_conflict_iff (db : DB) (q : BookingCreate)
    (hord : q.start_time < q.end_time)
    (hbook : q.book_id ∈ db.books) (huser : q.user_id ∈ db.users) :
    ((create false db q).1 = Except.ok none ↔
       ∃ b ∈ db.bookings, b.book_id = q.book_id ∧ b.active = true
         ∧ b.end_time > q.start_time ∧ b.start_time < q.end_time)
  ∧ ((¬ ∃ b ∈ db.bookings, b.book_id = q.book_id ∧ b.active = true
         ∧ b.end_time > q.start_time ∧ b.start_time < q.end_time) →
      create false db q
        = (Except.ok (some ⟨db.nextId, q.book_id, q.user_id, q.start_time, q.end_time, q.active⟩),
           ⟨db.bookings ++ [⟨db.nextId, q.book_id, q.user_id, q.start_time, q.end_time, q.active⟩],
            db.books, db.users, db.nextId + 1⟩)) := by
  have h1 : ¬ q.start_time ≥ q.end_time := not_le.mpr hord
  have h2 : ¬ q.book_id ∉ db.books := not_not_intro hbook
  have h3 : ¬ q.user_id ∉ db.users := not_not_intro huser
  have hiff := overlapExists_equiv db.bookings q.book_id q.start_time q.end_time
  by_cases hov : overlapExists db.bookings q.book_id q.start_time q.end_time
  · constructor
    · unfold create
      rw [if_neg h1, if_neg h2, if_neg h3, if_pos hov]
      exact iff_of_true rfl (hiff.mp hov)
    · intro hno
      exact absurd (hiff.mp hov) hno
  · have hs : create false db q
        = (Except.ok (some (newBookingOf db q)),
           { db with bookings := db.bookings ++ [newBookingOf db q], nextId := db.nextId + 1 }) := by
      unfold create
      rw [if_neg h1, if_neg h2, if_neg h3, if_neg hov, if_neg (by simp)]
    constructor
    · rw [hs]
      simp only [iff_iff_implies_and_implies]
      exact ⟨fun h => absurd h (by simp), fun h => absurd (hiff.mpr h) hov⟩
    · intro _
      exact hs

/-- Claim C3: any `create` and any `update` whose payload has
`start_time >= end_time` returns the validation error and leaves the
stored state unchanged, regardless of storage behaviour. -/
theorem C3_ordering_precondition (fl : Bool) (db : DB) (q : BookingCreate)
    (b0 : Booking) (u : BookingUpdate)
    (hq : q.start_time ≥ q.end_time) (hu : u.start_time ≥ u.end_time) :
    create fl db q
      = (Except.error (CrudError.validation "Start time must be before end time"), db)
  ∧ update fl db b0 u
      = (Except.error (CrudError.validation "Start time must be before end time"), db) := by
  constructor
  · unfold create
    rw [if_pos hq]
  · unfold update
    rw [if_pos hu]

/-- Claim C4 (amended): relative to the sweep's reference instant
`t + 3h`, one sweep deactivates exactly the active bookings whose
`end_time` lies before the reference (flipping only `active`), leaves
every other row untouched, removes or adds nothing, and a second sweep at
the same wall-clock is a no-op. -/
theorem C4_sweep_convergence (t : Int) (db : DB) :
    (∀ b ∈ db.bookings, b.active = true → b.end_time < t + threeHours →
       { b with active := false } ∈ (update_bookings t db).bookings)
  ∧ (∀ b ∈ db.bookings, (b.active = true → ¬ b.end_time < t + threeHours) →
       b ∈ (update_bookings t db).bookings)
  ∧ (update_bookings t db).bookings.length = db.bookings.length
  ∧ update_bookings t (update_bookings t db) = update_bookings t db := by
  refine ⟨?_, ?_, ?_, ?_⟩
  · intro b hb ha he
    exact List.mem_map.mpr ⟨b, hb, by unfold sweepFlip; rw [if_pos ⟨he, ha⟩]⟩
  · intro b hb h
    exact List.mem_map.mpr ⟨b, hb, by unfold sweepFlip; rw [if_neg (fun hc => h hc.2 hc.1)]⟩
  · simp [update_bookings]
  · unfold update_bookings
    simp only [List.map_map]
    congr 1
    exact map_sweepFlip_comp t db.bookings

/-- Claim C5: `cancel` on an existing id unconditionally sets
`active = false` and `end_time = now + 3h`, stores that row, returns it,
and performs no overlap check (its outcome is fully determined by the id
lookup alone — there is no conflict branch); on an unknown id it returns
the not-found signal and changes nothing. -/
theorem C5_cancel_spec (t : Int) (db : DB) (i : Nat) :
    (∀ b, get db i = some b →
       cancel false t db i
         = (Except.ok (some { b with active := false, end_time := t + threeHours }),
            { db with bookings := replaceById db.bookings b.id { b with active := false, end_time := t + threeHours } }))
  ∧ (get db i = none → cancel false t db i = (Except.ok none, db)) := by
  constructor
  · intro b hb
    simp [cancel, hb]
  · intro h
    simp [cancel, h]

/-- Claim C6 (amended): cancelling an already-inactive existing booking is
never a not-found and is not a no-op in general: it returns (and stores)
the row with `active` still `false` and `end_time` rewritten to
`now + 3h`, while `start_time`, `book_id` (resource), `user_id` (subject)
and `id` are never mutated. -/
theorem C6_cancel_inactive (t : Int) (db : DB) (i : Nat) (b : Booking)
    (hfind : get db i = some b) (_hinact : b.active = false) :
    ∃ r, (cancel false t db i).1 = Except.ok (some r)
      ∧ r.start_time = b.start_time ∧ r.book_id = b.book_id ∧ r.user_id = b.user_id
      ∧ r.id = b.id ∧ r.active = false ∧ r.end_time = t + threeHours := by
  refine ⟨{ b with active := false, end_time := t + threeHours },
    ?_, rfl, rfl, rfl, rfl, rfl, rfl⟩
  simp [cancel, hfind]

/-- Claim C7: on any successful `update`, the stored row takes exactly the
payload's values on the supplied fields, `active` keeps its prior value
when absent from the payload, `id` is untouched, and every other row of
the store (and the book/user tables and the id counter) is unchanged. -/
theorem C7_update_partial_semantics (db : DB) (b0 : Booking) (q : BookingUpdate)
    (r : Booking) (db2 : DB)
    (h : update false db b0 q = (Except.ok (some r), db2)) :
    r.id = b0.id ∧ r.book_id = q.book_id ∧ r.user_id = q.user_id
  ∧ r.start_time = q.start_time ∧ r.end_time = q.end_time
  ∧ (q.active = none → r.active = b0.active)
  ∧ (∀ a, q.active = some a → r.active = a)
  ∧ db2.books = db.books ∧ db2.users = db.users ∧ db2.nextId = db.nextId
  ∧ (∀ x ∈ db.bookings, x.id ≠ b0.id → x ∈ db2.bookings) := by
  unfold update at h
  split at h
  · simp at h
  · split at h
    · simp at h
    · split at h
      · simp at h
      · split at h
        · simp at h
        · rw [if_neg (by simp)] at h
          have hr : applyFields b0 q = r := by
            have := congrArg Prod.fst h
            simpa using this
          have hdb : ({ db with bookings := replaceById db.bookings b0.id (applyFields b0 q) } : DB)
              = db2 := by
            have := congrArg Prod.snd h
            simpa using this
          subst hr
          subst hdb
          refine ⟨rfl, rfl, rfl, rfl, rfl, ?_, ?_, rfl, rfl, rfl, ?_⟩
          · intro hn
            simp [applyFields, hn]
          · intro a ha
            simp [applyFields, ha]
          · intro x hx hne
            exact List.mem_map.mpr ⟨x, hx, by simp [hne]⟩

/-- The refresh step never changes the stored state it is handed: its
failure mode only replaces the returned value. -/
theorem refreshStep_snd (flr : Bool) (r : Except CrudError (Option Booking) × DB) :
    (refreshStep flr r).2 = r.2 := by
  obtain ⟨e, d⟩ := r
  cases e with
  | error err => rfl
  | ok o =>
    cases o with
    | none => rfl
    | some b => simp only [refreshStep]; split <;> rfl

/-- A refresh that does not fail is the identity on the operation's
outcome. -/
theorem refreshStep_none (r : Except CrudError (Option Booking) × DB) :
    refreshStep false r = r := by
  obtain ⟨e, d⟩ := r
  cases e with
  | error err => rfl
  | ok o =>
    cases o with
    | none => rfl
    | some b => rfl

/-- The refresh step passes error outcomes through unchanged (in the
source, the refresh is never reached when an exception was raised
earlier). -/
theorem refreshStep_fst_error (flr : Bool) (r : Except CrudError (Option Booking) × DB)
    (e : CrudError) (h : r.1 = Except.error e) :
    (refreshStep flr r).1 = Except.error e := by
  obtain ⟨e0, d⟩ := r
  simp only at h
  subst h
  rfl

/-- A failing refresh on a success outcome surfaces the storage error
while keeping the committed state. -/
theorem refreshStep_fail (r0 : Booking) (r : Except CrudError (Option Booking) × DB)
    (h : r.1 = Except.ok (some r0)) :
    refreshStep true r = (Except.error (CrudError.storage "refresh failed"), r.2) := by
  obtain ⟨e0, d⟩ := r
  simp only at h
  subst h
  rfl

/-- A failing commit leaves `create`'s stored state untouched. -/
theorem create_commit_snd (db : DB) (q : BookingCreate) : (create true db q).2 = db := by
  unfold create
  split_ifs <;> simp_all

/-- A failing commit leaves `update`'s stored state untouched. -/
theorem update_commit_snd (db : DB) (b0 : Booking) (u : BookingUpdate) :
    (update true db b0 u).2 = db := by
  unfold update
  split_ifs <;> simp_all

/-- A failing commit leaves `cancel`'s stored state untouched. -/
theorem cancel_commit_snd (t : Int) (db : DB) (i : Nat) : (cancel true t db i).2 = db := by
  unfold cancel
  cases hg : get db i <;> simp

/-- A failing commit leaves `remove`'s stored state untouched. -/
theorem remove_commit_snd (db : DB) (i : Nat) : (remove true db i).2 = db := by
  unfold remove
  cases hg : get db i <;> simp

/-- Whenever `create` would have committed, the failing-commit run raises
the storage error instead. -/
theorem create_commit_fst (db : DB) (q : BookingCreate) (r : Booking)
    (h : (create false db q).1 = Except.ok (some r)) :
    (create true db q).1 = Except.error (CrudError.storage "commit failed") := by
  unfold create at h ⊢
  split_ifs at h ⊢ <;> simp_all

/-- Whenever `update` would have committed, the failing-commit run raises
the storage error instead. -/
theorem update_commit_fst (db : DB) (b0 : Booking) (u : BookingUpdate) (r : Booking)
    (h : (update false db b0 u).1 = Except.ok (some r)) :
    (update true db b0 u).1 = Except.error (CrudError.storage "commit failed") := by
  unfold update at h ⊢
  split_ifs at h ⊢ <;> simp_all

/-- Whenever `cancel` would have committed, the failing-commit run raises
the storage error instead. -/
theorem cancel_commit_fst (t : Int) (db : DB) (i : Nat) (r : Booking)
    (h : (cancel false t db i).1 = Except.ok (some r)) :
    (cancel true t db i).1 = Except.error (CrudError.storage "commit failed") := by
  unfold cancel at h ⊢
  cases hg : get db i <;> simp_all

/-- Whenever `remove` would have committed, the failing-commit run raises
the storage error instead. -/
theorem remove_commit_fst (db : DB) (i : Nat) (r : Booking)
    (h : (remove false db i).1 = Except.ok (some r)) :
    (remove true db i).1 = Except.error (CrudError.storage "commit failed") := by
  unfold remove at h ⊢
  cases hg : get db i <;> simp_all

/-- Claim C9 (counterexample): a storage failure during Create — namely in
the post-commit `db.refresh` of `crud_booking.py` line 69 — aborts the
operation with a storage error, yet the stored state after the operation
is the committed one, not the state from before the operation began: the
all-or-nothing claim is false on this path. -/
theorem C9_counterexample_refresh_after_commit :
    createWithRefresh false true ⟨[], [1], [1], 1⟩ ⟨1, 1, 10, 12, true⟩
      = (Except.error (CrudError.storage "refresh failed"),
         ⟨[⟨1, 1, 1, 10, 12, true⟩], [1], [1], 2⟩)
  ∧ (⟨[⟨1, 1, 1, 10, 12, true⟩], [1], [1], 2⟩ : DB) ≠ (⟨[], [1], [1], 1⟩ : DB) := by
  decide

/-- Claim C9 (amended): a storage failure at or before the single commit
aborts any mutating operation with the storage error and leaves the
stored state exactly as before (and `remove`, which has no refresh, is
fully all-or-nothing); but the operations are not all-or-nothing end to
end: on any run that commits, a failure in the post-commit refresh
surfaces the storage error while the stored state remains the committed
state of the successful run. -/
theorem C9_commit_vs_refresh (db : DB) (q : BookingCreate) (b0 : Booking)
    (u : BookingUpdate) (t : Int) (i : Nat) (flr : Bool) :
    (createWithRefresh true flr db q).2 = db
  ∧ (updateWithRefresh true flr db b0 u).2 = db
  ∧ (cancelWithRefresh true flr t db i).2 = db
  ∧ (remove true db i).2 = db
  ∧ (∀ r, (createWithRefresh false false db q).1 = Except.ok (some r) →
       (createWithRefresh true flr db q).1 = Except.error (CrudError.storage "commit failed")
       ∧ createWithRefresh false true db q
           = (Except.error (CrudError.storage "refresh failed"),
              (createWithRefresh false false db q).2))
  ∧ (∀ r, (updateWithRefresh false false db b0 u).1 = Except.ok (some r) →
       (updateWithRefresh true flr db b0 u).1 = Except.error (CrudError.storage "commit failed")
       ∧ updateWithRefresh false true db b0 u
           = (Except.error (CrudError.storage "refresh failed"),
              (updateWithRefresh false false db b0 u).2))
  ∧ (∀ r, (cancelWithRefresh false false t db i).1 = Except.ok (some r) →
       (cancelWithRefresh true flr t db i).1 = Except.error (CrudError.storage "commit failed")
       ∧ cancelWithRefresh false true t db i
           = (Except.error (CrudError.storage "refresh failed"),
              (cancelWithRefresh false false t db i).2))
  ∧ (∀ r, (remove false db i).1 = Except.ok (some r) →
       (remove true db i).1 = Except.error (CrudError.storage "commit failed")) := by
  have hidc : createWithRefresh false false db q = create false db q := by
    unfold createWithRefresh
    exact refreshStep_none _
  have hidu : updateWithRefresh false false db b0 u = update false db b0 u := by
    unfold updateWithRefresh
    exact refreshStep_none _
  have hidk : cancelWithRefresh false false t db i = cancel false t db i := by
    unfold cancelWithRefresh
    exact refreshStep_none _
  refine ⟨?_, ?_, ?_, remove_commit_snd db i, ?_, ?_, ?_, ?_⟩
  · unfold createWithRefresh
    rw [refreshStep_snd, create_commit_snd]
  · unfold updateWithRefresh
    rw [refreshStep_snd, update_commit_snd]
  · unfold cancelWithRefresh
    rw [refreshStep_snd, cancel_commit_snd]
  · intro r h
    rw [hidc] at h
    constructor
    · exact refreshStep_fst_error flr _ _ (create_commit_fst db q r h)
    · rw [hidc]
      exact refreshStep_fail r _ h
  · intro r h
    rw [hidu] at h
    constructor
    · exact refreshStep_fst_error flr _ _ (update_commit_fst db b0 u r h)
    · rw [hidu]
      exact refreshStep_fail r _ h
  · intro r h
    rw [hidk] at h
    constructor
    · exact refreshStep_fst_error flr _ _ (cancel_commit_fst t db i r h)
    · rw [hidk]
      exact refreshStep_fail r _ h
  · intro r h
    exact remove_commit_fst db i r h

/-- Claim C10: the create-side overlap query places no condition on
`end_time` relative to the clock, so an overlapping booking that is still
`active` blocks a create even when its `end_time` already lies in the past
(`t` is arbitrary wall-clock time with `b.end_time < t`), exactly as a
current booking would. -/
theorem C10_expired_active_blocks (db : DB) (q : BookingCreate) (t : Int) (b : Booking)
    (hb : b ∈ db.bookings) (hbk : b.book_id = q.book_id) (hact : b.active = true)
    (_hpast : b.end_time < t)
    (ho1 : b.end_time > q.start_time) (ho2 : b.start_time < q.end_time)
    (hord : q.start_time < q.end_time)
    (hbook : q.book_id ∈ db.books) (huser : q.user_id ∈ db.users) :
    create false db q = (Except.ok none, db) := by
  have hov : overlapExists db.bookings q.book_id q.start_time q.end_time :=
    ⟨b, hb, hbk, ho1, ho2, hact⟩
  unfold create
  rw [if_neg (not_le.mpr hord), if_neg (not_not_intro hbook),
      if_neg (not_not_intro huser), if_pos hov]

/-- Witness for C2, at the spec's conflict-symmetry instants (minutes):
against an active booking over [600, 720) on book 1, creating [720, 840)
(exactly adjacent) succeeds with exactly the given fields, and creating
[660, 780) (overlapping) returns the conflict outcome. -/
theorem C2_create_conflict_iff_witness :
    create false ⟨[⟨1, 1, 1, 600, 720, true⟩], [1], [1], 2⟩ ⟨1, 1, 720, 840, true⟩
      = (Except.ok (some ⟨2, 1, 1, 720, 840, true⟩),
         ⟨[⟨1, 1, 1, 600, 720, true⟩, ⟨2, 1, 1, 720, 840, true⟩], [1], [1], 3⟩)
  ∧ (create false ⟨[⟨1, 1, 1, 600, 720, true⟩], [1], [1], 2⟩ ⟨1, 1, 660, 780, true⟩).1
      = Except.ok none := by
  constructor
  · exact (C2_create_conflict_iff ⟨[⟨1, 1, 1, 600, 720, true⟩], [1], [1], 2⟩
      ⟨1, 1, 720, 840, true⟩ (by decide) (by decide) (by decide)).2 (by decide)
  · exact (C2_create_conflict_iff ⟨[⟨1, 1, 1, 600, 720, true⟩], [1], [1], 2⟩
      ⟨1, 1, 660, 780, true⟩ (by decide) (by decide) (by decide)).1.mpr (by decide)

/-- Witness for C3: a create and an update with `start_time = 12 ≥ 10 =
end_time` both return the validation error and leave the store as it
was. -/
theorem C3_ordering_precondition_witness :
    ((12 : Int) ≥ 10)
  ∧ create false ⟨[], [1], [1], 5⟩ ⟨1, 1, 12, 10, true⟩
      = (Except.error (CrudError.validation "Start time must be before end time"),
         ⟨[], [1], [1], 5⟩)
  ∧ update false ⟨[], [1], [1], 5⟩ ⟨9, 1, 1, 0, 5, true⟩ ⟨1, 1, 12, 10, none⟩
      = (Except.error (CrudError.validation "Start time must be before end time"),
         ⟨[], [1], [1], 5⟩) := by
  refine ⟨by decide, ?_, ?_⟩
  · exact (C3_ordering_precondition false ⟨[], [1], [1], 5⟩ ⟨1, 1, 12, 10, true⟩
      ⟨9, 1, 1, 0, 5, true⟩ ⟨1, 1, 12, 10, none⟩ (by decide) (by decide)).1
  · exact (C3_ordering_precondition false ⟨[], [1], [1], 5⟩ ⟨1, 1, 12, 10, true⟩
      ⟨9, 1, 1, 0, 5, true⟩ ⟨1, 1, 12, 10, none⟩ (by decide) (by decide)).2

/-- Witness for C4 (amended): at wall-clock 0, a booking ending at 5
(before the reference 10800) is deactivated, one ending at 99999 (after
the reference) survives untouched, and the second sweep is a no-op. -/
theorem C4_sweep_convergence_witness :
    ((⟨1, 1, 1, 0, 5, false⟩ : Booking)
       ∈ (update_bookings 0 ⟨[⟨1, 1, 1, 0, 5, true⟩, ⟨2, 1, 1, 0, 99999, true⟩], [1], [1], 3⟩).bookings)
  ∧ ((⟨2, 1, 1, 0, 99999, true⟩ : Booking)
       ∈ (update_bookings 0 ⟨[⟨1, 1, 1, 0, 5, true⟩, ⟨2, 1, 1, 0, 99999, true⟩], [1], [1], 3⟩).bookings)
  ∧ update_bookings 0 (update_bookings 0 ⟨[⟨1, 1, 1, 0, 5, true⟩, ⟨2, 1, 1, 0, 99999, true⟩], [1], [1], 3⟩)
      = update_bookings 0 ⟨[⟨1, 1, 1, 0, 5, true⟩, ⟨2, 1, 1, 0, 99999, true⟩], [1], [1], 3⟩ := by
  refine ⟨?_, ?_, ?_⟩
  · exact (C4_sweep_convergence 0 ⟨[⟨1, 1, 1, 0, 5, true⟩, ⟨2, 1, 1, 0, 99999, true⟩], [1], [1], 3⟩).1
      ⟨1, 1, 1, 0, 5, true⟩ (by decide) (by decide) (by decide)
  · exact (C4_sweep_convergence 0 ⟨[⟨1, 1, 1, 0, 5, true⟩, ⟨2, 1, 1, 0, 99999, true⟩], [1], [1], 3⟩).2.1
      ⟨2, 1, 1, 0, 99999, true⟩ (by decide) (by decide)
  · exact (C4_sweep_convergence 0 ⟨[⟨1, 1, 1, 0, 5, true⟩, ⟨2, 1, 1, 0, 99999, true⟩], [1], [1], 3⟩).2.2.2

/-- Witness for C5: cancelling existing booking 1 at wall-clock 0 stores
and returns it inactive with `end_time = 10800`; cancelling the unknown id
7 is the not-found signal with the store untouched. -/
theorem C5_cancel_spec_witness :
    cancel false 0 ⟨[⟨1, 1, 1, 0, 5, true⟩], [1], [1], 2⟩ 1
      = (Except.ok (some ⟨1, 1, 1, 0, 10800, false⟩),
         ⟨[⟨1, 1, 1, 0, 10800, false⟩], [1], [1], 2⟩)
  ∧ cancel false 0 ⟨[⟨1, 1, 1, 0, 5, true⟩], [1], [1], 2⟩ 7
      = (Except.ok none, ⟨[⟨1, 1, 1, 0, 5, true⟩], [1], [1], 2⟩) := by
  constructor
  · exact (C5_cancel_spec 0 ⟨[⟨1, 1, 1, 0, 5, true⟩], [1], [1], 2⟩ 1).1
      ⟨1, 1, 1, 0, 5, true⟩ (by decide)
  · exact (C5_cancel_spec 0 ⟨[⟨1, 1, 1, 0, 5, true⟩], [1], [1], 2⟩ 7).2 (by decide)

/-- Witness for C6 (amended): cancelling the inactive booking
`⟨1, 1, 1, 0, 5, false⟩` at wall-clock 0 returns a row with the same
`start_time`, `book_id`, `user_id` and `id`, still inactive, with
`end_time` rewritten to the 3-hour mark. -/
theorem C6_cancel_inactive_witness :
    ∃ r, (cancel false 0 ⟨[⟨1, 1, 1, 0, 5, false⟩], [1], [1], 2⟩ 1).1 = Except.ok (some r)
      ∧ r.start_time = 0 ∧ r.book_id = 1 ∧ r.user_id = 1
      ∧ r.id = 1 ∧ r.active = false ∧ r.end_time = 0 + threeHours :=
  C6_cancel_inactive 0 ⟨[⟨1, 1, 1, 0, 5, false⟩], [1], [1], 2⟩ 1
    ⟨1, 1, 1, 0, 5, false⟩ (by decide) (by decide)

/-- Witness for C7: a successful update supplying new times but no
`active` field keeps the prior `active` value on the stored row. -/
theorem C7_update_partial_semantics_witness :
    update false ⟨[⟨1, 1, 1, 10, 12, true⟩], [1], [1], 2⟩ ⟨1, 1, 1, 10, 12, true⟩
        ⟨1, 1, 20, 30, none⟩
      = (Except.ok (some ⟨1, 1, 1, 20, 30, true⟩), ⟨[⟨1, 1, 1, 20, 30, true⟩], [1], [1], 2⟩)
  ∧ (⟨1, 1, 1, 20, 30, true⟩ : Booking).active = (⟨1, 1, 1, 10, 12, true⟩ : Booking).active := by
  have h : update false ⟨[⟨1, 1, 1, 10, 12, true⟩], [1], [1], 2⟩ ⟨1, 1, 1, 10, 12, true⟩
        ⟨1, 1, 20, 30, none⟩
      = (Except.ok (some ⟨1, 1, 1, 20, 30, true⟩), ⟨[⟨1, 1, 1, 20, 30, true⟩], [1], [1], 2⟩) := by
    decide
  exact ⟨h, (C7_update_partial_semantics ⟨[⟨1, 1, 1, 10, 12, true⟩], [1], [1], 2⟩
    ⟨1, 1, 1, 10, 12, true⟩ ⟨1, 1, 20, 30, none⟩ ⟨1, 1, 1, 20, 30, true⟩
    ⟨[⟨1, 1, 1, 20, 30, true⟩], [1], [1], 2⟩ h).2.2.2.2.2.1 rfl⟩

/-- Witness for C9 (amended): on a create that would have succeeded, a
failing commit surfaces the storage error with the store untouched, while
a failing post-commit refresh surfaces the storage error with the insert
already committed; likewise the commit-failure case for a cancel of an
existing booking. -/
theorem C9_commit_vs_refresh_witness :
    (createWithRefresh true false ⟨[], [1], [1], 1⟩ ⟨1, 1, 10, 12, true⟩).2 = ⟨[], [1], [1], 1⟩
  ∧ (createWithRefresh true false ⟨[], [1], [1], 1⟩ ⟨1, 1, 10, 12, true⟩).1
      = Except.error (CrudError.storage "commit failed")
  ∧ createWithRefresh false true ⟨[], [1], [1], 1⟩ ⟨1, 1, 10, 12, true⟩
      = (Except.error (CrudError.storage "refresh failed"),
         ⟨[⟨1, 1, 1, 10, 12, true⟩], [1], [1], 2⟩)
  ∧ (cancelWithRefresh true false 0 ⟨[⟨1, 1, 1, 0, 5, true⟩], [1], [1], 2⟩ 1).2
      = ⟨[⟨1, 1, 1, 0, 5, true⟩], [1], [1], 2⟩
  ∧ (cancelWithRefresh true false 0 ⟨[⟨1, 1, 1, 0, 5, true⟩], [1], [1], 2⟩ 1).1
      = Except.error (CrudError.storage "commit failed") := by
  have h1 := C9_commit_vs_refresh ⟨[], [1], [1], 1⟩ ⟨1, 1, 10, 12, true⟩
    ⟨1, 1, 1, 0, 5, true⟩ ⟨1, 1, 20, 30, none⟩ 0 1 false
  have h2 := C9_commit_vs_refresh ⟨[⟨1, 1, 1, 0, 5, true⟩], [1], [1], 2⟩
    ⟨1, 1, 10, 12, true⟩ ⟨1, 1, 1, 0, 5, true⟩ ⟨1, 1, 20, 30, none⟩ 0 1 false
  have hc := h1.2.2.2.2.1 ⟨1, 1, 1, 10, 12, true⟩ (by decide)
  have hk := h2.2.2.2.2.2.2.1 ⟨1, 1, 1, 0, 10800, false⟩ (by decide)
  refine ⟨h1.1, hc.1, ?_, h2.2.2.1, hk.1⟩
  rw [hc.2]
  rfl

/-- Witness for C10: an active booking over [0, 10) whose end already lies
100 units in the past still blocks an overlapping create of [5, 15) on the
same book. -/
theorem C10_expired_active_blocks_witness :
    create false ⟨[⟨1, 1, 1, 0, 10, true⟩], [1], [1], 2⟩ ⟨1, 1, 5, 15, true⟩
      = (Except.ok none, ⟨[⟨1, 1, 1, 0, 10, true⟩], [1], [1], 2⟩)
  ∧ (10 : Int) < 100 :=
  ⟨C10_expired_active_blocks ⟨[⟨1, 1, 1, 0, 10, true⟩], [1], [1], 2⟩ ⟨1, 1, 5, 15, true⟩
      100 ⟨1, 1, 1, 0, 10, true⟩ (by decide) rfl rfl (by decide) (by decide) (by decide)
      (by decide) (by decide) (by decide),
   by decide⟩

end BookCatalog
